import Mathlib

/-!
Shallow embedding of `src/main.py` — a single-endpoint HTTP relay that
forwards a caller's question to the OpenRouter chat-completions API and
relays back the extracted answer, translating error statuses.

Modelling conventions:
* Python `dict`/JSON values are modelled by the inductive `Json` below.
  `json.loads` builds dicts where a duplicated key keeps its *last*
  occurrence, hence `pyDictGet` folds from the left, later pairs winning.
* JSON numbers are modelled as scaled decimals: `Json.num m s` denotes
  the literal m / 10^s (so `num 1000 0` is `1000`, `num 7 1` is `0.7`);
  Python renders scale-0 numbers as `int`, others as `float`.
* Python exceptions raised during request handling are modelled by
  `PyExc`.  FastAPI's `HTTPException` is an `Exception` subclass, while
  `httpx.TimeoutException` and other `httpx.RequestError`s are the only
  exceptions matched by the first two `except` clauses of
  `call_openrouter_api`; everything else falls to `except Exception`.
  `pyStr` models Python's `str(e)`; exception-message text that CPython
  generates is reproduced where stable ("list index out of range") and
  approximated where version-dependent (TypeError wording) — no theorem
  below depends on the approximated texts.
* `str.strip()` is modelled by `String.trim` (both remove leading and
  trailing ASCII whitespace; the Unicode fringe is irrelevant here).
* A FastAPI `HTTPException(status_code=c, detail=\x7b"message": m\x7d)`
  surfaces to the caller as HTTP status `c` with body
  `\x7b"detail": \x7b"message": m\x7d\x7d`; it is modelled by
  `RelayError` carrying `c` and `m`.  A normal return of the endpoint
  surfaces as HTTP 200 with body `\x7b"response": s\x7d`, modelled by
  `SuccessResponse`.
* The module-global `DEFAULT_API_KEY = os.getenv("OPENROUTER_API_KEY")`
  is passed to the model as an explicit `Option String` parameter
  (`none` = variable unset); the network is abstracted by an
  `UpstreamOutcome` parameter describing what the single outbound
  `client.post` did.
-/

namespace OpenAIProxy

/-- JSON values (= the Python values `response.json()` can produce). -/
inductive Json where
  | null
  | bool (b : Bool)
  | num (mantissa : Int) (scale : Nat)
  | str (s : String)
  | arr (items : List Json)
  | obj (fields : List (String × Json))

/-- Python exceptions that the handling code can raise or observe. -/
inductive PyExc where
  | keyError (key : String)
  | indexError (msg : String)
  | typeError (msg : String)
  | attributeError (msg : String)
  | httpException (status_code : Nat) (message : String)
  | timeoutException
  | requestError
  | otherError (msg : String)
deriving DecidableEq, Repr

/-- Python type name of a `Json` value, as used in CPython error texts. -/
def pyTypeName : Json → String
  | .null => "NoneType"
  | .bool _ => "bool"
  | .num _ 0 => "int"
  | .num _ _ => "float"
  | .str _ => "str"
  | .arr _ => "list"
  | .obj _ => "dict"

/-- `str(e)` for a modelled Python exception.  For `HTTPException`,
Starlette renders `f"\x7bstatus_code\x7d: \x7bdetail\x7d"` where the
detail is the dict `\x7b'message': ...\x7d`. -/
def pyStr : PyExc → String
  | .keyError k => "\x27" ++ k ++ "\x27"
  | .indexError m => m
  | .typeError m => m
  | .attributeError m => m
  | .httpException c m => toString c ++ ": \x7b\x27message\x27: \x27" ++ m ++ "\x27\x7d"
  | .timeoutException => "timed out"
  | .requestError => "request error"
  | .otherError m => m

/-- Dict lookup as built by `json.loads`: a duplicated key keeps its last
occurrence. -/
def pyDictGet (fields : List (String × Json)) (k : String) : Option Json :=
  fields.foldl (fun acc kv => if kv.1 = k then some kv.2 else acc) none

/-- Python subscript `j[k]` with a string key: dict lookup (KeyError when
missing), TypeError on every non-dict. -/
def pyGetKey (j : Json) (k : String) : Except PyExc Json :=
  match j with
  | .obj fields =>
      match pyDictGet fields k with
      | some v => .ok v
      | none => .error (.keyError k)
  | .arr _ => .error (.typeError "list indices must be integers or slices, not str")
  | .str _ => .error (.typeError "string indices must be integers")
  | j => .error (.typeError ("\x27" ++ pyTypeName j ++ "\x27 object is not subscriptable"))

/-- Python subscript `j[0]`: list head (IndexError when empty), dict
lookup of the integer key `0` (always a KeyError on a JSON-parsed dict,
whose keys are strings), string indexing, TypeError otherwise. -/
def pyIndexZero (j : Json) : Except PyExc Json :=
  match j with
  | .arr [] => .error (.indexError "list index out of range")
  | .arr (x :: _) => .ok x
  | .obj _ => .error (.keyError "0")
  | .str s =>
      if s.isEmpty then .error (.indexError "string index out of range")
      else .ok (.str (String.mk [s.front]))
  | j => .error (.typeError ("\x27" ++ pyTypeName j ++ "\x27 object is not subscriptable"))

/-- The characters `str.strip()` removes: Python's ASCII whitespace
(space, tab, newline, carriage return, vertical tab, form feed; the
Unicode space fringe is irrelevant to this development). -/
def pyIsSpace (c : Char) : Bool :=
  c = ' ' || c = '\t' || c = '\n' || c = '\r' || c = '\x0b' || c = '\x0c'

/-- Python `s.strip()` on a string: drop leading and trailing
whitespace. -/
def pyStripStr (s : String) : String :=
  ⟨((s.data.dropWhile pyIsSpace).reverse.dropWhile pyIsSpace).reverse⟩

/-- Python `v.strip()`: trims a string, AttributeError on anything else. -/
def pyStrip : Json → Except PyExc String
  | .str s => .ok (pyStripStr s)
  | j => .error (.attributeError
      ("\x27" ++ pyTypeName j ++ "\x27 object has no attribute \x27strip\x27"))

/-- The access chain `json_data[\x27choices\x27][0][\x27message\x27][\x27content\x27]`,
each subscript evaluated left to right, the first exception propagating. -/
def pyExtractChain (json_data : Json) : Except PyExc Json :=
  match pyGetKey json_data "choices" with
  | .error e => .error e
  | .ok choices =>
    match pyIndexZero choices with
    | .error e => .error e
    | .ok choice0 =>
      match pyGetKey choice0 "message" with
      | .error e => .error e
      | .ok msg => pyGetKey msg "content"

/-- The full expression inside the `try` of `extract_response_content`:
`json_data[\x27choices\x27][0][\x27message\x27][\x27content\x27].strip()`. -/
def extract_attempt (json_data : Json) : Except PyExc String :=
  match pyExtractChain json_data with
  | .error e => .error e
  | .ok v => pyStrip v

/-- The exceptions that fall through to `except Exception` in
`call_openrouter_api`: everything except the two httpx transport
exceptions matched by the earlier `except` clauses. -/
def hitsCatchAll : PyExc → Bool
  | .timeoutException => false
  | .requestError => false
  | _ => true

-- ---------------------------------------------------------------------
-- The source functions of src/main.py
-- ---------------------------------------------------------------------

/-- `OPENROUTER_API_URL` (main.py line 11). -/
def OPENROUTER_API_URL : String := "https://openrouter.ai/api/v1/chat/completions"

/-- The `timeout=60.0` argument of `httpx.AsyncClient` (main.py line 73),
in seconds. -/
def request_timeout_seconds : Nat := 60

/-- Pydantic model `QuestionRequest` (main.py lines 15-16): a single
required field `question : str` with no further constraint. -/
structure QuestionRequest where
  question : String
deriving DecidableEq, Repr

/-- Pydantic model `SuccessResponse` (main.py lines 18-19): the HTTP 200
body `\x7b"response": ...\x7d`. -/
structure SuccessResponse where
  response : String
deriving DecidableEq, Repr

/-- FastAPI's schema validation of the inbound JSON body against
`QuestionRequest`: the body must be an object whose `question` field is
a string; any string, the empty one included, is accepted. -/
def parseQuestionRequest (body : Json) : Option QuestionRequest :=
  match body with
  | .obj fields =>
      match pyDictGet fields "question" with
      | some (.str s) => some ⟨s⟩
      | _ => none
  | _ => none

/-- A raised `HTTPException`, as the caller sees it: HTTP status code and
the `message` field of the `detail` dict. -/
structure RelayError where
  status_code : Nat
  message : String
deriving DecidableEq, Repr

/-- What the endpoint handler terminates with: the HTTP 200 success body,
or a structured error. -/
inductive RelayResult where
  | success (body : SuccessResponse)
  | failure (e : RelayError)
deriving DecidableEq, Repr

/-- `validate_api_key` (main.py lines 21-26).  Python's
`x_api_key or DEFAULT_API_KEY` takes the first truthy operand (a string
is truthy iff non-empty, `None` is falsy); `if not api_key` then raises
`HTTPException(401, \x7b"message": "API Key required"\x7d)`.  The
module-global `DEFAULT_API_KEY` is the second parameter. -/
def validate_api_key (x_api_key DEFAULT_API_KEY : Option String) : Except RelayError String :=
  let api_key : Option String :=
    match x_api_key with
    | some s => if s = "" then DEFAULT_API_KEY else some s
    | none => DEFAULT_API_KEY
  match api_key with
  | some s => if s = "" then .error ⟨401, "API Key required"⟩ else .ok s
  | none => .error ⟨401, "API Key required"⟩

/-- `create_request_payload` (main.py lines 28-35). -/
def create_request_payload (question : String) : Json :=
  .obj [("model", .str "openai/gpt-3.5-turbo"),
        ("messages", .arr [.obj [("role", .str "user"), ("content", .str question)]]),
        ("max_tokens", .num 1000 0),
        ("temperature", .num 7 1)]

/-- `create_headers` (main.py lines 37-42). -/
def create_headers (api_key : String) : List (String × String) :=
  [("Authorization", "Bearer " ++ api_key),
   ("Content-Type", "application/json")]

/-- The `error_map` dict of `handle_response_error` (main.py lines 46-50). -/
def error_map : List (Nat × String) :=
  [(401, "API Key required"), (402, "API Key required"), (429, "Rate limit exceeded")]

/-- `handle_response_error` (main.py lines 44-58): the HTTPException it
raises for a given upstream status code. -/
def handle_response_error (status_code : Nat) : PyExc :=
  match error_map.lookup status_code with
  | some msg => .httpException status_code msg
  | none => .httpException status_code ("OpenAI API error: " ++ toString status_code)

/-- `extract_response_content` (main.py lines 60-65): evaluate the access
chain with `.strip()`; `except KeyError` converts a KeyError (and only a
KeyError) into `HTTPException(500, "Unexpected response format")` —
every other exception (IndexError from an empty `choices` list included)
propagates unchanged. -/
def extract_response_content (json_data : Json) : Except PyExc String :=
  match extract_attempt json_data with
  | .ok s => .ok s
  | .error (.keyError _) => .error (.httpException 500 "Unexpected response format")
  | .error e => .error e

/-- `response.is_success` in httpx: status code in [200, 300). -/
def is_success (status_code : Nat) : Bool :=
  200 ≤ status_code && status_code < 300

/-- What the single outbound `client.post` did, abstracting the network:
an HTTP response (status code + parsed JSON body), an
`httpx.TimeoutException`, another `httpx.RequestError`, or some other
exception raised during the call (message of its `str`). -/
inductive UpstreamOutcome where
  | response (status_code : Nat) (body : Json)
  | timeout
  | transportError
  | otherFailure (msg : String)

/-- The `except` clause chain of `call_openrouter_api` (main.py lines
82-87), applied to what the `try` body produced.  Python tries the
clauses in order: `httpx.TimeoutException` → 504 "Request timeout",
`httpx.RequestError` → 503 "Connection error", and `Exception`
→ 500 "Internal server error: " + `str(e)`; the `HTTPException`s raised
from within an `except` clause escape the `try` statement unhandled. -/
def except_chain (attempt : Except PyExc String) : Except RelayError String :=
  match attempt with
  | .ok s => .ok s
  | .error .timeoutException => .error ⟨504, "Request timeout"⟩
  | .error .requestError => .error ⟨503, "Connection error"⟩
  | .error e => .error ⟨500, "Internal server error: " ++ pyStr e⟩

/-- `call_openrouter_api` (main.py lines 67-87).  The `try` body checks
`is_success`, calls `handle_response_error` on failure and
`extract_response_content` on success — both raise *inside* the `try`,
so their `HTTPException`s reach the `except` chain like any other
exception. -/
def call_openrouter_api (api_key question : String) (outcome : UpstreamOutcome) :
    Except RelayError String :=
  let _headers := create_headers api_key
  let _payload := create_request_payload question
  except_chain
    (match outcome with
     | .response status_code body =>
         if is_success status_code then
           extract_response_content body
         else
           .error (handle_response_error status_code)
     | .timeout => .error .timeoutException
     | .transportError => .error .requestError
     | .otherFailure m => .error (.otherError m))

/-- `ask_openai` (main.py lines 89-97): resolve the credential, perform
the upstream call, wrap the answer in `SuccessResponse`; a raised
`HTTPException` terminates the handler with that structured error. -/
def ask_openai (DEFAULT_API_KEY : Option String) (question : String)
    (x_api_key : Option String) (outcome : UpstreamOutcome) : RelayResult :=
  match validate_api_key x_api_key DEFAULT_API_KEY with
  | .error e => .failure e
  | .ok api_key =>
      match call_openrouter_api api_key question outcome with
      | .ok s => .success ⟨s⟩
      | .error e => .failure e

/-- One full run of the relay against a deterministic upstream stub: the
stub decides the outcome of the outbound call from the request's inputs. -/
def runRelay (DEFAULT_API_KEY : Option String)
    (stub : String → Option String → UpstreamOutcome)
    (question : String) (x_api_key : Option String) : RelayResult :=
  ask_openai DEFAULT_API_KEY question x_api_key (stub question x_api_key)

-- ---------------------------------------------------------------------
-- Helper lemmas
-- ---------------------------------------------------------------------

/-- Errors of `pyGetKey` are data-access exceptions, caught (if at all)
only by `except Exception`. -/
theorem pyGetKey_error_hits (j : Json) (k : String) (e : PyExc)
    (h : pyGetKey j k = .error e) : hitsCatchAll e = true := by
  cases j <;> simp only [pyGetKey] at h
  case obj fields =>
    cases hd : pyDictGet fields k <;> rw [hd] at h
    · exact (Except.error.inj h) ▸ rfl
    · cases h
  all_goals exact (Except.error.inj h) ▸ rfl

/-- Errors of `pyIndexZero` are data-access exceptions. -/
theorem pyIndexZero_error_hits (j : Json) (e : PyExc)
    (h : pyIndexZero j = .error e) : hitsCatchAll e = true := by
  cases j <;> simp only [pyIndexZero] at h
  case arr items =>
    cases items with
    | nil => exact (Except.error.inj h) ▸ rfl
    | cons x xs => cases h
  case str s =>
    by_cases hs : s.isEmpty <;> simp only [hs, if_true, if_false] at h
    · exact (Except.error.inj h) ▸ rfl
    · cases h
  all_goals exact (Except.error.inj h) ▸ rfl

/-- Errors of `pyStrip` are data-access exceptions. -/
theorem pyStrip_error_hits (j : Json) (e : PyExc)
    (h : pyStrip j = .error e) : hitsCatchAll e = true := by
  cases j <;> simp only [pyStrip] at h
  all_goals first
    | exact (Except.error.inj h) ▸ rfl
    | cases h

/-- Errors of the whole `try`-body expression of
`extract_response_content` are data-access exceptions. -/
theorem extract_attempt_error_hits (body : Json) (e : PyExc)
    (h : extract_attempt body = .error e) : hitsCatchAll e = true := by
  unfold extract_attempt pyExtractChain at h
  cases h1 : pyGetKey body "choices" <;> simp only [h1, Except.error.injEq] at h
  case error e1 => exact h ▸ pyGetKey_error_hits body "choices" e1 h1
  case ok choices =>
    cases h2 : pyIndexZero choices <;> simp only [h2, Except.error.injEq] at h
    case error e2 => exact h ▸ pyIndexZero_error_hits choices e2 h2
    case ok choice0 =>
      cases h3 : pyGetKey choice0 "message" <;> simp only [h3, Except.error.injEq] at h
      case error e3 => exact h ▸ pyGetKey_error_hits choice0 "message" e3 h3
      case ok msg =>
        cases h4 : pyGetKey msg "content" <;> simp only [h4, Except.error.injEq] at h
        case error e4 => exact h ▸ pyGetKey_error_hits msg "content" e4 h4
        case ok v => exact pyStrip_error_hits v e h

/-- `handle_response_error` always raises an `HTTPException`, and the
catch-all `except Exception` matches it. -/
theorem handle_response_error_hits (status_code : Nat) :
    hitsCatchAll (handle_response_error status_code) = true := by
  unfold handle_response_error
  cases error_map.lookup status_code <;> rfl

/-- Every exception escaping `extract_response_content` — the
`HTTPException` of its `except KeyError` clause or a propagating
data-access exception — is matched by the catch-all. -/
theorem extract_response_content_error_hits (body : Json) (e : PyExc)
    (h : extract_response_content body = .error e) : hitsCatchAll e = true := by
  unfold extract_response_content at h
  cases ha : extract_attempt body with
  | ok s => rw [ha] at h; exact Except.noConfusion h
  | error e1 =>
    have hca := extract_attempt_error_hits body e1 ha
    cases e1 <;> simp only [ha, Except.error.injEq] at h <;>
      first
        | exact h ▸ rfl
        | exact Bool.noConfusion hca

/-- An exception the catch-all matches is re-raised as
`HTTPException(500, "Internal server error: " + str(e))`. -/
theorem except_chain_wraps (e : PyExc) (h : hitsCatchAll e = true) :
    except_chain (.error e) = .error ⟨500, "Internal server error: " ++ pyStr e⟩ := by
  cases e <;> first | rfl | exact Bool.noConfusion h

/-- Reduction of `call_openrouter_api` on an HTTP response outcome. -/
theorem call_openrouter_api_response (api_key question : String) (code : Nat) (body : Json) :
    call_openrouter_api api_key question (.response code body)
      = except_chain (if is_success code then extract_response_content body
                      else .error (handle_response_error code)) := rfl

/-- Reduction of `ask_openai` once the credential resolves. -/
theorem ask_openai_ok (DEFAULT_API_KEY x_api_key : Option String)
    (api_key question : String) (outcome : UpstreamOutcome)
    (hk : validate_api_key x_api_key DEFAULT_API_KEY = .ok api_key) :
    ask_openai DEFAULT_API_KEY question x_api_key outcome
      = match call_openrouter_api api_key question outcome with
        | .ok s => .success ⟨s⟩
        | .error e => .failure e := by
  unfold ask_openai
  rw [hk]

-- ---------------------------------------------------------------------
-- Claim theorems
-- ---------------------------------------------------------------------

/-- Claim C1 (code bug): the table of `handle_response_error` is exactly
the claimed mapping — 401/402 → "API Key required", 429 → "Rate limit
exceeded", other non-2xx s → s with "OpenAI API error: s" — but the
`HTTPException` it raises is raised inside the `try` of
`call_openrouter_api`, is caught by the `except Exception` catch-all,
and is re-wrapped, so the caller actually receives 500 "Internal server
error: ..." instead of the mapped status and message. -/
theorem handle_response_error_table_swallowed :
    handle_response_error 401 = .httpException 401 "API Key required"
  ∧ handle_response_error 402 = .httpException 402 "API Key required"
  ∧ handle_response_error 429 = .httpException 429 "Rate limit exceeded"
  ∧ handle_response_error 500 = .httpException 500 "OpenAI API error: 500"
  ∧ ask_openai (some "key") "q" none (.response 429 .null)
      = .failure ⟨500, "Internal server error: "
          ++ pyStr (.httpException 429 "Rate limit exceeded")⟩
  ∧ ask_openai (some "key") "q" none (.response 429 .null)
      ≠ .failure ⟨429, "Rate limit exceeded"⟩
  ∧ ask_openai (some "key") "q" none (.response 500 .null)
      ≠ .failure ⟨500, "OpenAI API error: 500"⟩ := by
  refine ⟨rfl, rfl, rfl, rfl, rfl, ?_, ?_⟩ <;> decide

/-- Claim C2 (code bug): `extract_response_content` does raise
`HTTPException(500, "Unexpected response format")` on a missing key, but
that exception is re-caught by the catch-all of `call_openrouter_api`
and re-wrapped, so the caller's message begins "Internal server
error: " instead; and an empty `choices` list raises an IndexError that
the `except KeyError` clause does not convert at all. -/
theorem unexpected_format_swallowed :
    extract_response_content (.obj [])
      = .error (.httpException 500 "Unexpected response format")
  ∧ ask_openai (some "key") "q" none (.response 200 (.obj []))
      = .failure ⟨500, "Internal server error: "
          ++ pyStr (.httpException 500 "Unexpected response format")⟩
  ∧ extract_attempt (.obj [("choices", .arr [])])
      = .error (.indexError "list index out of range")
  ∧ ask_openai (some "key") "q" none (.response 200 (.obj [("choices", .arr [])]))
      = .failure ⟨500, "Internal server error: list index out of range"⟩
  ∧ ask_openai (some "key") "q" none (.response 200 (.obj []))
      ≠ .failure ⟨500, "Unexpected response format"⟩
  ∧ ask_openai (some "key") "q" none (.response 200 (.obj [("choices", .arr [])]))
      ≠ .failure ⟨500, "Unexpected response format"⟩ := by
  refine ⟨rfl, rfl, rfl, rfl, ?_, ?_⟩ <;> decide

/-- Claim C3: for every upstream outcome whose handling raises a relay
error inside the body of the upstream call — every non-2xx status, and
every 2xx body that fails extraction (an empty choices list raising an
index error rather than a key error included) — the caller receives
status 500 with a message beginning "Internal server error: ", because
the raised error is itself caught by the generic catch-all handler and
re-wrapped. -/
theorem catch_all_wraps_relay_errors (DEFAULT_API_KEY x_api_key : Option String)
    (api_key question : String) (code : Nat) (body : Json)
    (hk : validate_api_key x_api_key DEFAULT_API_KEY = .ok api_key)
    (hfail : is_success code = false ∨ ∃ e, extract_attempt body = .error e) :
    ∃ rest, ask_openai DEFAULT_API_KEY question x_api_key (.response code body)
      = .failure ⟨500, "Internal server error: " ++ rest⟩ := by
  rw [ask_openai_ok DEFAULT_API_KEY x_api_key api_key question _ hk,
      call_openrouter_api_response]
  by_cases hs : is_success code = true
  · rcases hfail with hbad | ⟨e, he⟩
    · rw [hs] at hbad; cases hbad
    · rw [if_pos hs]
      cases hc : extract_response_content body with
      | ok s =>
        exfalso
        unfold extract_response_content at hc
        rw [he] at hc
        cases e <;> simp at hc
      | error e2 =>
        refine ⟨pyStr e2, ?_⟩
        rw [except_chain_wraps e2 (extract_response_content_error_hits body e2 hc)]
  · rw [if_neg hs]
    refine ⟨pyStr (handle_response_error code), ?_⟩
    rw [except_chain_wraps _ (handle_response_error_hits code)]

/-- Witness for C3: a 429 upstream response and a 2xx response with an
empty `choices` list both surface as 500 "Internal server error: ...". -/
theorem catch_all_wraps_relay_errors_witness :
    (∃ rest, ask_openai (some "key") "q" none (.response 429 .null)
        = .failure ⟨500, "Internal server error: " ++ rest⟩)
  ∧ (∃ rest, ask_openai (some "key") "q" none
        (.response 200 (.obj [("choices", .arr [])]))
        = .failure ⟨500, "Internal server error: " ++ rest⟩) :=
  ⟨catch_all_wraps_relay_errors (some "key") none "key" "q" 429 .null rfl (Or.inl rfl),
   catch_all_wraps_relay_errors (some "key") none "key" "q" 200 (.obj [("choices", .arr [])])
     rfl (Or.inr ⟨.indexError "list index out of range", rfl⟩)⟩

/-- Claim C4: a request with a non-empty question and a usable
credential, answered upstream with a 2xx response whose body carries
`choices[0].message.content` as a string, yields relay status 200 with
that content trimmed of leading and trailing whitespace as the single
`response` field. -/
theorem relay_returns_trimmed_content (DEFAULT_API_KEY x_api_key : Option String)
    (api_key question : String) (code : Nat) (body : Json) (content : String)
    (_hq : question ≠ "")
    (hk : validate_api_key x_api_key DEFAULT_API_KEY = .ok api_key)
    (h2 : is_success code = true)
    (hc : pyExtractChain body = .ok (.str content)) :
    ask_openai DEFAULT_API_KEY question x_api_key (.response code body)
      = .success ⟨pyStripStr content⟩ := by
  rw [ask_openai_ok DEFAULT_API_KEY x_api_key api_key question _ hk,
      call_openrouter_api_response, if_pos h2]
  have hex : extract_response_content body = .ok (pyStripStr content) := by
    unfold extract_response_content extract_attempt
    rw [hc]
    rfl
  rw [hex]
  rfl

/-- Witness for C4: a well-formed upstream body with padded content
yields 200 with the trimmed content. -/
theorem relay_returns_trimmed_content_witness :
    ask_openai (some "key") "q" none
      (.response 200 (.obj [("choices",
        .arr [.obj [("message", .obj [("content", .str "  hello  ")])]])]))
      = .success ⟨"hello"⟩ :=
  relay_returns_trimmed_content (some "key") none "key" "q" 200
    (.obj [("choices", .arr [.obj [("message", .obj [("content", .str "  hello  ")])]])])
    "  hello  " (by decide) rfl rfl rfl

/-- Claim C5: the key resolver uses the caller-supplied credential when
present and non-empty, otherwise falls back to the process-wide default;
when neither is available the relay returns 401 "API Key required", and
— the result being the same for every upstream outcome — performs no
outbound call. -/
theorem key_resolver_spec :
    (∀ (s : String) (dk : Option String), s ≠ "" →
       validate_api_key (some s) dk = .ok s)
  ∧ (∀ (xk : Option String) (d : String), (xk = none ∨ xk = some "") → d ≠ "" →
       validate_api_key xk (some d) = .ok d)
  ∧ (∀ (xk dk : Option String), (xk = none ∨ xk = some "") → (dk = none ∨ dk = some "") →
       ∀ (question : String) (u : UpstreamOutcome),
         ask_openai dk question xk u = .failure ⟨401, "API Key required"⟩) := by
  refine ⟨?_, ?_, ?_⟩
  · intro s dk hs
    unfold validate_api_key
    simp [hs]
  · rintro xk d (rfl | rfl) hd <;> unfold validate_api_key <;> simp [hd]
  · rintro xk dk (rfl | rfl) (rfl | rfl) question u <;> rfl

/-- Witness for C5: a caller key wins, the default is the fallback, and
with neither the relay answers 401 whatever the upstream would do. -/
theorem key_resolver_spec_witness :
    validate_api_key (some "caller-key") (some "default-key") = .ok "caller-key"
  ∧ validate_api_key none (some "default-key") = .ok "default-key"
  ∧ ask_openai none "q" none .timeout = .failure ⟨401, "API Key required"⟩ :=
  ⟨key_resolver_spec.1 "caller-key" (some "default-key") (by decide),
   key_resolver_spec.2.1 none "default-key" (Or.inl rfl) (by decide),
   key_resolver_spec.2.2 none none (Or.inl rfl) (Or.inl rfl) "q" .timeout⟩

/-- Claim C6: the outbound call runs under a hard 60-second timeout; a
timeout yields relay status 504 "Request timeout" and any other
transport-level failure reaching upstream yields 503 "Connection
error". -/
theorem timeout_and_transport_mapping (DEFAULT_API_KEY x_api_key : Option String)
    (api_key question : String)
    (hk : validate_api_key x_api_key DEFAULT_API_KEY = .ok api_key) :
    request_timeout_seconds = 60
  ∧ ask_openai DEFAULT_API_KEY question x_api_key .timeout
      = .failure ⟨504, "Request timeout"⟩
  ∧ ask_openai DEFAULT_API_KEY question x_api_key .transportError
      = .failure ⟨503, "Connection error"⟩ := by
  refine ⟨rfl, ?_, ?_⟩ <;>
    rw [ask_openai_ok DEFAULT_API_KEY x_api_key api_key question _ hk] <;> rfl

/-- Witness for C6 at a concrete credential. -/
theorem timeout_and_transport_mapping_witness :
    request_timeout_seconds = 60
  ∧ ask_openai (some "key") "q" none .timeout = .failure ⟨504, "Request timeout"⟩
  ∧ ask_openai (some "key") "q" none .transportError
      = .failure ⟨503, "Connection error"⟩ :=
  timeout_and_transport_mapping (some "key") none "key" "q" rfl

/-- Claim C7: for every question string, the payload builder produces
exactly the fixed body — model "openai/gpt-3.5-turbo", a single user
message carrying the question, max_tokens 1000, temperature 0.7
(`Json.num 7 1`) — with no caller-supplied overrides. -/
theorem create_request_payload_shape (question : String) :
    create_request_payload question
      = .obj [("model", .str "openai/gpt-3.5-turbo"),
              ("messages", .arr [.obj [("role", .str "user"),
                                       ("content", .str question)]]),
              ("max_tokens", .num 1000 0),
              ("temperature", .num 7 1)]
  ∧ pyGetKey (create_request_payload question) "model"
      = .ok (.str "openai/gpt-3.5-turbo")
  ∧ pyGetKey (create_request_payload question) "messages"
      = .ok (.arr [.obj [("role", .str "user"), ("content", .str question)]])
  ∧ pyGetKey (create_request_payload question) "max_tokens" = .ok (.num 1000 0)
  ∧ pyGetKey (create_request_payload question) "temperature" = .ok (.num 7 1) :=
  ⟨rfl, rfl, rfl, rfl, rfl⟩

/-- Claim C8: for every inbound request and every upstream outcome the
endpoint handler terminates with exactly one of a success body or a
structured error — never both, never neither. -/
theorem endpoint_terminal_dichotomy (DEFAULT_API_KEY x_api_key : Option String)
    (question : String) (u : UpstreamOutcome) :
    (∃ s, ask_openai DEFAULT_API_KEY question x_api_key u = .success s
        ∧ ∀ e, ask_openai DEFAULT_API_KEY question x_api_key u ≠ .failure e)
  ∨ (∃ e, ask_openai DEFAULT_API_KEY question x_api_key u = .failure e
        ∧ ∀ s, ask_openai DEFAULT_API_KEY question x_api_key u ≠ .success s) := by
  cases h : ask_openai DEFAULT_API_KEY question x_api_key u with
  | success s =>
    exact Or.inl ⟨s, rfl, fun e he => RelayResult.noConfusion he⟩
  | failure e =>
    exact Or.inr ⟨e, rfl, fun s hs => RelayResult.noConfusion hs⟩

/-- Claim C9: two runs of the relay with identical question and
credential against the same deterministic upstream stub produce the
identical response. -/
theorem relay_deterministic (DEFAULT_API_KEY : Option String)
    (stub : String → Option String → UpstreamOutcome)
    (q1 q2 : String) (xk1 xk2 : Option String)
    (hq : q1 = q2) (hx : xk1 = xk2) :
    runRelay DEFAULT_API_KEY stub q1 xk1 = runRelay DEFAULT_API_KEY stub q2 xk2 := by
  rw [hq, hx]

/-- Witness for C9 at a concrete stub and inputs. -/
theorem relay_deterministic_witness :
    runRelay (some "key") (fun _ _ => .timeout) "q" none
      = runRelay (some "key") (fun _ _ => .timeout) "q" none :=
  relay_deterministic (some "key") (fun _ _ => .timeout) "q" "q" none none rfl rfl

/-- Claim C10: the inbound schema imposes no non-emptiness constraint on
the question — the empty string passes validation — and the question is
forwarded verbatim as the user message content of the outbound
payload. -/
theorem empty_question_accepted_and_forwarded :
    parseQuestionRequest (.obj [("question", .str "")]) = some ⟨""⟩
  ∧ (∀ question : String,
      pyGetKey (create_request_payload question) "messages"
        = .ok (.arr [.obj [("role", .str "user"), ("content", .str question)]]))
  ∧ pyGetKey (create_request_payload "") "messages"
      = .ok (.arr [.obj [("role", .str "user"), ("content", .str "")]]) :=
  ⟨rfl, fun _ => rfl, rfl⟩

end OpenAIProxy
